import Mathlib

/-!
Shallow embedding of the IPC bridge of `8b-is/8b-theme-mcp`:
the client-side request/response correlator (`src/bridge/client.ts`,
class `BridgeClient`) and the server-side dispatcher
(`src/bridge/server.ts`, class `BridgeServer`).

The JavaScript `Map` holding pending requests is modelled as an
association list with `Map`-faithful operations; timer handles are
numbered; invoking a stored `resolve`/`reject` continuation, clearing a
timer or writing to the console is recorded as an `Event` in a trace,
since the state transitions of the handlers are synchronous and atomic
(Node's event loop runs each handler to completion).
-/

namespace Bridge

/-- `Map.get` on the association-list model: first binding wins
(reachable states never hold duplicate keys). -/
def assocGet {α : Type} : List (String × α) → String → Option α
  | [], _ => none
  | (k', v') :: rest, k => if k = k' then some v' else assocGet rest k

/-- `Map.set`: replace the binding in place when the key is present,
append otherwise. -/
def assocSet {α : Type} : List (String × α) → String → α → List (String × α)
  | [], k, v => [(k, v)]
  | (k', v') :: rest, k, v =>
      if k = k' then (k, v) :: rest else (k', v') :: assocSet rest k v

/-- `Map.delete`: remove the binding for the key. -/
def assocDelete {α : Type} (m : List (String × α)) (k : String) : List (String × α) :=
  m.filter (fun p => p.1 ≠ k)

/-! ### Protocol (`src/bridge/protocol.ts`)

`BridgeResponse` is `{ id: string, result?: any, error?: string }`;
an absent field is `none`.  The `result` payload is opaque to the
correlator (it is handed to the continuation unexamined), so it is
modelled as `Option String` (`none` = `undefined`). -/

structure BridgeResponse where
  id : String
  result : Option String := none
  error : Option String := none
deriving DecidableEq, Repr

/-- JavaScript truthiness of an optional string: `undefined` and the
empty string are falsy, every other string is truthy. -/
def strTruthy : Option String → Bool
  | none => false
  | some s => ¬ s = ""

/-- An inbound IPC message: either a value passing the
`isBridgeResponse` type guard, or anything else. -/
inductive InboundMessage
  | response (r : BridgeResponse)
  | malformed
deriving DecidableEq, Repr

/-! ### Client-side correlator (`src/bridge/client.ts`) -/

/-- `PendingRequest` (client.ts lines 42-47): the stored `resolve` and
`reject` closures settle the promise of the request this record is
keyed by, so invoking them is recorded as a trace event carrying that
id; the record itself keeps the timer handle and the `cancelled` flag. -/
structure PendingRequest where
  timer : Nat
  cancelled : Bool
deriving DecidableEq, Repr

/-- Observable actions of one synchronous handler turn. -/
inductive Event
  | resolved (id : String) (result : Option String)
  | rejected (id : String) (message : String)
  | timerCleared (timer : Nat)
  | sent (id : String) (method : String)
  | logError (msg : String)
  | logWarn (msg : String)
deriving DecidableEq, Repr

/-- Mutable state of a `BridgeClient` instance; `nextTimer` numbers the
`setTimeout` handles the runtime hands out. -/
structure ClientState where
  requestId : Nat
  pendingRequests : List (String × PendingRequest)
  nextTimer : Nat
deriving DecidableEq, Repr

/-- The `process.on('message', ...)` listener (client.ts lines 70-105):
validate, look up by id, drop unknown ids, drop already-cancelled
records, otherwise mark cancelled, clear the timer, settle by the
truthiness of `response.error`, and delete the record. -/
def handleMessage (st : ClientState) (msg : InboundMessage) : ClientState × List Event :=
  match msg with
  | .malformed =>
      (st, [.logError "[BridgeClient] Received invalid message (not a BridgeResponse)"])
  | .response response =>
      match assocGet st.pendingRequests response.id with
      | none =>
          (st, [.logError ("[BridgeClient] No pending request for ID: " ++ response.id)])
      | some pending =>
          if pending.cancelled then
            (st, [.logWarn ("[BridgeClient] Response arrived for already-cancelled request: "
                    ++ response.id)])
          else
            ({ st with pendingRequests := assocDelete st.pendingRequests response.id },
             [.timerCleared pending.timer,
              if strTruthy response.error then
                .rejected response.id (response.error.getD "")
              else
                .resolved response.id response.result])

/-- The `setTimeout` callback of `call` (client.ts lines 148-162): no-op
when the record is gone or cancelled, otherwise mark cancelled, delete
the record and reject with the timeout error. -/
def handleTimeout (st : ClientState) (id : String) (method : String) (timeout : Nat) :
    ClientState × List Event :=
  match assocGet st.pendingRequests id with
  | none => (st, [])
  | some pending =>
      if pending.cancelled then (st, [])
      else
        ({ st with pendingRequests := assocDelete st.pendingRequests id },
         [.rejected id ("Bridge request timeout: " ++ method ++ " (waited "
            ++ Nat.repr timeout ++ "ms)")])

/-- Outcome of the `process.send` attempt inside `call`:
present-and-true, function absent, returned `false`, or threw. -/
inductive SendOutcome
  | ok
  | noSendFn
  | returnedFalse
  | threw (msg : String)
deriving DecidableEq, Repr

/-- The id minted by `call`: `req-<counter>` via the template literal. -/
def mintId (counter : Nat) : String :=
  "req-" ++ Nat.repr counter

/-- The synchronous body of `BridgeClient.call` (client.ts lines
139-193): mint `req-<counter>`, start the timer, insert the pending
record, then attempt the send; on any of the three send failures clear
the timer, delete the record and reject in the same turn.  Returns the
new state, the trace, and the minted id (identifying the promise). -/
def call (st : ClientState) (method : String) (outcome : SendOutcome) :
    ClientState × List Event × String :=
  let id := mintId st.requestId
  let timer := st.nextTimer
  let st1 : ClientState :=
    { requestId := st.requestId + 1,
      nextTimer := st.nextTimer + 1,
      pendingRequests := assocSet st.pendingRequests id { timer := timer, cancelled := false } }
  match outcome with
  | .ok => (st1, [.sent id method], id)
  | .noSendFn =>
      ({ st1 with pendingRequests := assocDelete st1.pendingRequests id },
       [.timerCleared timer,
        .rejected id "process.send is not available - not running as child process?"], id)
  | .returnedFalse =>
      ({ st1 with pendingRequests := assocDelete st1.pendingRequests id },
       [.timerCleared timer,
        .rejected id "Failed to send IPC message - channel may be closed"], id)
  | .threw msg =>
      ({ st1 with pendingRequests := assocDelete st1.pendingRequests id },
       [.timerCleared timer,
        .rejected id ("Exception sending IPC message: " ++ msg)], id)

/-- `BridgeClient.cleanup` (client.ts lines 284-290): clear every timer,
reject every pending request, clear the map. -/
def cleanup (st : ClientState) : ClientState × List Event :=
  ({ st with pendingRequests := [] },
   st.pendingRequests.flatMap (fun p =>
     [.timerCleared p.2.timer,
      .rejected p.1 "BridgeClient cleanup - request cancelled"]))

/-- The `process.on('disconnect', ...)` handler (client.ts lines
107-112): log, then run `cleanup`. -/
def onDisconnect (st : ClientState) : ClientState × List Event :=
  let r := cleanup st
  (r.1, .logError "[BridgeClient] Parent process disconnected - failing all pending requests"
          :: r.2)

/-- Count of continuation invocations (resolve or reject) for one id in
a trace. -/
def settleCount (id : String) (evs : List Event) : Nat :=
  (evs.filter (fun e =>
    match e with
    | .resolved i _ => i = id
    | .rejected i _ => i = id
    | _ => false)).length

/-! ### Server-side dispatcher (`src/bridge/server.ts`) -/

/-- The `vscode.ConfigurationTarget` enum the protocol strings are
mapped onto. -/
inductive VSCodeTarget
  | Global
  | Workspace
  | WorkspaceFolder
deriving DecidableEq, Repr

/-- JavaScript falsiness of an optional string parameter. -/
def strFalsy (v : Option String) : Bool := ! strTruthy v

/-- `BridgeServer.mapConfigurationTarget` (server.ts lines 71-87):
a falsy selector gives `Global`; the three protocol strings map to
their enum values; anything else falls to the `default` branch and also
gives `Global`. -/
def mapConfigurationTarget (target : Option String) : VSCodeTarget :=
  if strFalsy target then .Global
  else
    match target with
    | some "Global" => .Global
    | some "Workspace" => .Workspace
    | some "WorkspaceFolder" => .WorkspaceFolder
    | _ => .Global

/-- Parameter bag of a bridge request; an absent field is `none`.
`colors` is an object and hence truthy whenever present. -/
structure BridgeParams where
  key : Option String := none
  value : Option String := none
  colors : Option (List (String × String)) := none
  target : Option String := none
deriving DecidableEq, Repr

/-- One invocation of the external `VSCodeConfig` store (the privileged
API is an external collaborator; only which method was invoked, with
which arguments, is observable to the dispatcher). -/
inductive Effect
  | getCurrentColorsCall
  | getColorCall (key : String)
  | setColorCall (key : String) (value : String) (target : VSCodeTarget)
  | setColorsCall (colors : List (String × String)) (target : VSCodeTarget)
  | resetColorCall (key : String) (target : VSCodeTarget)
  | resetAllColorsCall (target : VSCodeTarget)
deriving DecidableEq, Repr

/-- Whether a store invocation mutates the configuration store. -/
def Effect.isMutation : Effect → Bool
  | .getCurrentColorsCall => false
  | .getColorCall _ => false
  | _ => true

/-- Result value of a dispatched method: either whatever the store
returned (reads pass it through opaquely) or the `{ success: true }`
acknowledgment of the write methods. -/
inductive BValue
  | fromStore
  | ack
deriving DecidableEq, Repr

/-- Behaviour of the external store on one invocation: return normally
or throw with a message. -/
def StoreBehavior : Type := Effect → Except String Unit

/-- Perform one store invocation: record the effect and propagate a
thrown error. -/
def runStore (store : StoreBehavior) (e : Effect) (v : BValue) :
    Except String BValue × List Effect :=
  match store e with
  | .ok _ => (.ok v, [e])
  | .error m => (.error m, [e])

/-- `BridgeServer.callMethod` (server.ts lines 131-187): validate the
required parameters of the method by JavaScript truthiness, throw a
missing-parameter error before any store call, otherwise map the
target selector and invoke the store.  The returned pair is the
outcome (`.error` = threw) together with the store invocations made. -/
def callMethod (store : StoreBehavior) (method : String) (params : Option BridgeParams) :
    Except String BValue × List Effect :=
  if method = "getCurrentColors" then
    runStore store .getCurrentColorsCall .fromStore
  else if method = "getColor" then
    if strFalsy (params.bind (fun p => p.key)) then
      (.error "Missing required parameter: key", [])
    else
      runStore store (.getColorCall ((params.bind (fun p => p.key)).getD "")) .fromStore
  else if method = "setColor" then
    if strFalsy (params.bind (fun p => p.key)) || strFalsy (params.bind (fun p => p.value)) then
      (.error "Missing required parameters: key, value", [])
    else
      runStore store
        (.setColorCall ((params.bind (fun p => p.key)).getD "")
          ((params.bind (fun p => p.value)).getD "")
          (mapConfigurationTarget (params.bind (fun p => p.target)))) .ack
  else if method = "setColors" then
    match params.bind (fun p => p.colors) with
    | none => (.error "Missing required parameter: colors", [])
    | some cs =>
        runStore store
          (.setColorsCall cs (mapConfigurationTarget (params.bind (fun p => p.target)))) .ack
  else if method = "resetColor" then
    if strFalsy (params.bind (fun p => p.key)) then
      (.error "Missing required parameter: key", [])
    else
      runStore store
        (.resetColorCall ((params.bind (fun p => p.key)).getD "")
          (mapConfigurationTarget (params.bind (fun p => p.target)))) .ack
  else if method = "resetAllColors" then
    runStore store
      (.resetAllColorsCall (mapConfigurationTarget (params.bind (fun p => p.target)))) .ack
  else
    (.error ("Unknown bridge method: " ++ method), [])

/-- A bridge request as received by the dispatcher. -/
structure BridgeRequest where
  id : String
  method : String
  params : Option BridgeParams
deriving DecidableEq, Repr

/-- The dispatcher's response `{ id, result?, error? }`. -/
structure ServerResponse where
  id : String
  result : Option BValue := none
  error : Option String := none
deriving DecidableEq, Repr

/-- `BridgeServer.handleRequest` (server.ts lines 98-118): call the
executor inside try/catch; on success answer `{id, result}`, on any
thrown failure answer `{id, error: message}`. -/
def handleRequest (store : StoreBehavior) (req : BridgeRequest) :
    ServerResponse × List Effect :=
  match callMethod store req.method req.params with
  | (.ok v, effs) => ({ id := req.id, result := some v, error := none }, effs)
  | (.error m, effs) => ({ id := req.id, result := none, error := some m }, effs)

/-! ### Decimal numerals

`req-${counter}` stringifies the counter in decimal; `decChars` is the
decimal digit list (most significant first) that `Nat.repr` produces,
and `valNat` reads it back, giving injectivity of the minted ids. -/

/-- Decimal digit characters of `n`, most significant digit first. -/
def decChars (n : Nat) : List Char :=
  if h : n < 10 then [Nat.digitChar n]
  else
    have : n / 10 < n := Nat.div_lt_self (by omega) (by omega)
    decChars (n / 10) ++ [Nat.digitChar (n % 10)]

/-- Numeric value of one decimal digit character. -/
def charVal (c : Char) : Nat := c.toNat - 48

/-- Value of a decimal digit string, most significant digit first. -/
def valNat (l : List Char) : Nat := l.foldl (fun a c => 10 * a + charVal c) 0

/-- Issue a sequence of calls on one `BridgeClient` instance, collecting
the minted ids. -/
def runCalls (st : ClientState) : List (String × SendOutcome) → ClientState × List String
  | [] => (st, [])
  | (m, o) :: rest =>
      let r := call st m o
      let rr := runCalls r.1 rest
      (rr.1, r.2.2 :: rr.2)

/-! ### Helper lemmas -/

theorem assocGet_assocDelete {α : Type} (m : List (String × α)) (k : String) :
    assocGet (assocDelete m k) k = none := by
  induction m with
  | nil => rfl
  | cons hd tl ih =>
      unfold assocDelete at ih ⊢
      simp only [ne_eq, decide_not] at ih ⊢
      rw [List.filter_cons]
      by_cases h : hd.1 = k
      · simp [h, ih]
      · simp [h, assocGet, Ne.symm h, ih]

theorem assocGet_assocSet {α : Type} (m : List (String × α)) (k : String) (v : α) :
    assocGet (assocSet m k v) k = some v := by
  induction m with
  | nil => simp [assocSet, assocGet]
  | cons hd tl ih =>
      by_cases h : k = hd.1
      · simp [assocSet, h, assocGet]
      · simp [assocSet, h, assocGet, ih]

/-- `assocGet` misses exactly when no binding carries the key. -/
theorem assocGet_eq_none_iff {α : Type} (m : List (String × α)) (k : String) :
    assocGet m k = none ↔ ∀ p ∈ m, p.1 ≠ k := by
  induction m with
  | nil => simp [assocGet]
  | cons hd tl ih =>
      by_cases h : k = hd.1
      · simp [assocGet, h]
      · simp [assocGet, h, ih, Ne.symm h]

/-- `Nat.toDigitsCore` with enough fuel produces the decimal digits in
front of the accumulator. -/
theorem toDigitsCore_eq_decChars (f : Nat) :
    ∀ n acc, n < f → Nat.toDigitsCore 10 f n acc = decChars n ++ acc := by
  induction f with
  | zero => intro n acc h; omega
  | succ f ih =>
      intro n acc h
      rw [Nat.toDigitsCore]
      by_cases h10 : n / 10 = 0
      · have hn : n < 10 := by omega
        have hm : n % 10 = n := Nat.mod_eq_of_lt hn
        rw [decChars]
        simp [h10, hn, hm]
      · have hge : 10 ≤ n := by omega
        have hlt : n / 10 < f := by omega
        have hdec : decChars n = decChars (n / 10) ++ [Nat.digitChar (n % 10)] := by
          rw [decChars]
          simp [Nat.not_lt.mpr hge]
        rw [if_neg h10, ih (n / 10) _ hlt, hdec, List.append_assoc]
        rfl

theorem toDigits_eq_decChars (n : Nat) : Nat.toDigits 10 n = decChars n := by
  have := toDigitsCore_eq_decChars (n + 1) n [] (by omega)
  simpa [Nat.toDigits] using this

theorem repr_eq_decChars (n : Nat) : Nat.repr n = (decChars n).asString := by
  rw [Nat.repr, toDigits_eq_decChars]

theorem charVal_digitChar : ∀ d, d < 10 → charVal (Nat.digitChar d) = d := by decide

theorem valNat_append_digit (l : List Char) (c : Char) :
    valNat (l ++ [c]) = 10 * valNat l + charVal c := by
  simp [valNat, List.foldl_append]

theorem valNat_decChars (n : Nat) : valNat (decChars n) = n := by
  induction n using Nat.strong_induction_on with
  | _ n ih =>
      rw [decChars]
      by_cases h : n < 10
      · rw [dif_pos h]
        simpa [valNat] using charVal_digitChar n h
      · have hdiv : n / 10 < n := Nat.div_lt_self (by omega) (by omega)
        rw [dif_neg h, valNat_append_digit, ih _ hdiv,
          charVal_digitChar _ (Nat.mod_lt _ (by omega))]
        omega

theorem decChars_injective {m n : Nat} (h : decChars m = decChars n) : m = n := by
  have := congrArg valNat h
  rwa [valNat_decChars, valNat_decChars] at this

theorem mintId_injective {m n : Nat} (h : mintId m = mintId n) : m = n := by
  apply decChars_injective
  have hd := congrArg String.data h
  simp only [mintId, repr_eq_decChars] at hd
  have : "req-".data ++ decChars m = "req-".data ++ decChars n := by
    simpa [String.data_append, List.asString] using hd
  exact List.append_cancel_left this

theorem call_minted_id (st : ClientState) (method : String) (o : SendOutcome) :
    (call st method o).2.2 = mintId st.requestId := by
  cases o <;> rfl

theorem call_requestId (st : ClientState) (method : String) (o : SendOutcome) :
    (call st method o).1.requestId = st.requestId + 1 := by
  cases o <;> rfl

theorem runCalls_ids (calls : List (String × SendOutcome)) :
    ∀ st : ClientState, (runCalls st calls).2 =
      (List.range calls.length).map (fun i => mintId (st.requestId + i)) := by
  induction calls with
  | nil => intro st; rfl
  | cons c rest ih =>
      intro st
      show ((runCalls (call st c.1 c.2).1 rest).1,
        (call st c.1 c.2).2.2 :: (runCalls (call st c.1 c.2).1 rest).2).2 = _
      rw [List.length_cons, List.range_succ_eq_map, List.map_cons]
      simp only [call_minted_id, ih, call_requestId, List.map_map]
      rw [Nat.add_zero]
      refine congrArg (fun l => mintId st.requestId :: l) (List.map_congr_left ?_)
      intro i _
      simp only [Function.comp_apply]
      congr 1
      omega

theorem settleCount_append (id : String) (l1 l2 : List Event) :
    settleCount id (l1 ++ l2) = settleCount id l1 + settleCount id l2 := by
  simp [settleCount, List.filter_append]

theorem settleCount_cleanup_zero (id : String) (l : List (String × PendingRequest))
    (h : ∀ p ∈ l, p.1 ≠ id) :
    settleCount id (l.flatMap (fun p =>
      [Event.timerCleared p.2.timer,
       Event.rejected p.1 "BridgeClient cleanup - request cancelled"])) = 0 := by
  induction l with
  | nil => rfl
  | cons hd tl ih =>
      rw [List.flatMap_cons, settleCount_append, ih (fun p hp => h p (List.mem_cons_of_mem hd hp))]
      have hhd : hd.1 ≠ id := h hd (List.mem_cons_self hd tl)
      simp [settleCount, hhd]

/-! ### Claims -/

/-- C8: request ids are unique per correlator lifetime: every call mints
`req-<counter>` and increments the instance-owned counter (also on
failed sends), so the ids of any sequence of calls on one instance are
pairwise distinct. -/
theorem request_ids_unique (st : ClientState) (method : String) (o : SendOutcome)
    (calls : List (String × SendOutcome)) :
    (call st method o).2.2 = mintId st.requestId
    ∧ (call st method o).1.requestId = st.requestId + 1
    ∧ (runCalls st calls).2 =
        (List.range calls.length).map (fun i => mintId (st.requestId + i))
    ∧ ((runCalls st calls).2).Nodup := by
  refine ⟨call_minted_id st method o, call_requestId st method o, runCalls_ids calls st, ?_⟩
  rw [runCalls_ids calls st]
  refine (List.nodup_range _).map ?_
  intro a b h
  have := mintId_injective h
  omega

/-- C3: when the send fails (no `process.send`, `process.send` returned
`false`, or `process.send` threw), the call rejects synchronously in
the same turn with a descriptive error, its timer is cleared, and the
pending-request table holds no record for the minted id afterwards. -/
theorem send_failure_leaves_no_pending (st : ClientState) (method : String) :
    (assocGet (call st method .noSendFn).1.pendingRequests
        (call st method .noSendFn).2.2 = none
      ∧ (call st method .noSendFn).2.1 =
          [.timerCleared st.nextTimer,
           .rejected (mintId st.requestId)
             "process.send is not available - not running as child process?"])
    ∧ (assocGet (call st method .returnedFalse).1.pendingRequests
        (call st method .returnedFalse).2.2 = none
      ∧ (call st method .returnedFalse).2.1 =
          [.timerCleared st.nextTimer,
           .rejected (mintId st.requestId)
             "Failed to send IPC message - channel may be closed"])
    ∧ ∀ msg : String,
        assocGet (call st method (.threw msg)).1.pendingRequests
          (call st method (.threw msg)).2.2 = none
        ∧ (call st method (.threw msg)).2.1 =
            [.timerCleared st.nextTimer,
             .rejected (mintId st.requestId)
               ("Exception sending IPC message: " ++ msg)] :=
  ⟨⟨assocGet_assocDelete _ _, rfl⟩,
   ⟨assocGet_assocDelete _ _, rfl⟩,
   fun _ => ⟨assocGet_assocDelete _ _, rfl⟩⟩

/-- C7: a well-formed response whose id matches no pending record is
dropped with only a log: the client state — every other pending record
included — is exactly what it was before the message arrived. -/
theorem unknown_id_response_dropped (st : ClientState) (r : BridgeResponse)
    (h : assocGet st.pendingRequests r.id = none) :
    handleMessage st (.response r) =
      (st, [.logError ("[BridgeClient] No pending request for ID: " ++ r.id)]) := by
  simp [handleMessage, h]

/-- Witness for C7 at a state holding one unrelated pending record. -/
theorem unknown_id_response_dropped_witness :
    handleMessage
        { requestId := 1,
          pendingRequests := [("req-0", { timer := 5, cancelled := false })],
          nextTimer := 6 }
        (.response { id := "req-99", result := none, error := none }) =
      ({ requestId := 1,
         pendingRequests := [("req-0", { timer := 5, cancelled := false })],
         nextTimer := 6 },
       [.logError ("[BridgeClient] No pending request for ID: " ++ "req-99")]) :=
  unknown_id_response_dropped _ _ (by decide)

/-- C9: the listener settles by JavaScript truthiness of `error`, not
by its presence: a response whose `error` is the empty string resolves
the call with `result` instead of rejecting it. -/
theorem empty_error_string_resolves (st : ClientState) (r : BridgeResponse)
    (p : PendingRequest) (hget : assocGet st.pendingRequests r.id = some p)
    (hc : p.cancelled = false) (he : r.error = some "") :
    handleMessage st (.response r) =
      ({ st with pendingRequests := assocDelete st.pendingRequests r.id },
       [.timerCleared p.timer, .resolved r.id r.result]) := by
  simp [handleMessage, hget, hc, he, strTruthy]

/-- Witness for C9: a response carrying `error: ""` and an undefined
`result` resolves (with `undefined`) rather than rejects. -/
theorem empty_error_string_resolves_witness :
    handleMessage
        { requestId := 1,
          pendingRequests := [("req-0", { timer := 7, cancelled := false })],
          nextTimer := 8 }
        (.response { id := "req-0", result := none, error := some "" }) =
      ({ requestId := 1,
         pendingRequests :=
           assocDelete [("req-0", { timer := 7, cancelled := false })] "req-0",
         nextTimer := 8 },
       [.timerCleared 7, .resolved "req-0" none]) :=
  empty_error_string_resolves _ _ { timer := 7, cancelled := false }
    (by decide) (by decide) (by decide)

/-- C10: required-parameter validation rejects falsy values, not only
absent ones: an empty-string `key` or `value` draws the same
missing-parameter error as an absent one, with no store invocation, for
`setColor`, `getColor` and `resetColor`; for `setColors` an absent
`colors` object is rejected likewise. -/
theorem falsy_required_params_rejected (store : StoreBehavior) (v t : Option String) :
    callMethod store "setColor" (some { key := some "", value := v, target := t }) =
        (.error "Missing required parameters: key, value", [])
    ∧ (∀ k : Option String,
        callMethod store "setColor" (some { key := k, value := some "", target := t }) =
          (.error "Missing required parameters: key, value", []))
    ∧ callMethod store "setColor" (some { key := some "", value := v, target := t }) =
        callMethod store "setColor" none
    ∧ callMethod store "getColor" (some { key := some "" }) =
        (.error "Missing required parameter: key", [])
    ∧ callMethod store "getColor" (some { key := some "" }) =
        callMethod store "getColor" none
    ∧ callMethod store "resetColor" (some { key := some "", target := t }) =
        (.error "Missing required parameter: key", [])
    ∧ callMethod store "setColors" (some { target := t }) =
        (.error "Missing required parameter: colors", []) := by
  refine ⟨?_, ?_, ?_, ?_, ?_, ?_, ?_⟩ <;>
    simp [callMethod, strFalsy, strTruthy, Option.bind]

/-- C2: the dispatcher always answers with a response bearing the
request id: exactly one of `result`/`error` is set, a successful
executor run yields `{id, result}`, and any thrown executor failure is
caught and yields `{id, error: message}` — never a raw exception. -/
theorem handleRequest_never_throws (store : StoreBehavior) (req : BridgeRequest) :
    (handleRequest store req).1.id = req.id
    ∧ (handleRequest store req).1.result.isSome = (handleRequest store req).1.error.isNone
    ∧ (∀ v effs, callMethod store req.method req.params = (.ok v, effs) →
        handleRequest store req = ({ id := req.id, result := some v, error := none }, effs))
    ∧ (∀ m effs, callMethod store req.method req.params = (.error m, effs) →
        handleRequest store req = ({ id := req.id, result := none, error := some m }, effs)) := by
  rcases hcm : callMethod store req.method req.params with ⟨res, effs⟩
  cases res with
  | ok v =>
      refine ⟨?_, ?_, ?_, ?_⟩ <;> simp [handleRequest, hcm]
  | error m =>
      refine ⟨?_, ?_, ?_, ?_⟩ <;> simp [handleRequest, hcm]

/-- Witness for C2: a store whose every call throws `"boom"` still gets
a response-shaped answer from the dispatcher. -/
theorem handleRequest_never_throws_witness :
    handleRequest (fun _ => Except.error "boom")
        { id := "req-3", method := "getCurrentColors", params := none } =
      ({ id := "req-3", result := none, error := some "boom" },
       [Effect.getCurrentColorsCall]) :=
  (handleRequest_never_throws (fun _ => Except.error "boom")
      { id := "req-3", method := "getCurrentColors", params := none }).2.2.2
    "boom" [Effect.getCurrentColorsCall] (by rfl)

/-- C5: `setColor` with a missing (falsy) `key` or `value` fails with
the error naming the missing parameters before any side-effecting call:
the returned effect list is empty, so no store mutation was invoked and
the configuration store is unchanged. -/
theorem setColor_validation_before_mutation (store : StoreBehavior)
    (params : Option BridgeParams)
    (h : strFalsy (params.bind (fun p => p.key)) = true
       ∨ strFalsy (params.bind (fun p => p.value)) = true) :
    callMethod store "setColor" params =
      (.error "Missing required parameters: key, value", []) := by
  rcases h with h | h <;> simp [callMethod, h]

/-- Witness for C5: `value` absent. -/
theorem setColor_validation_before_mutation_witness :
    callMethod (fun _ => Except.ok ()) "setColor"
        (some { key := some "editor.background" }) =
      (.error "Missing required parameters: key, value", []) :=
  setColor_validation_before_mutation (fun _ => Except.ok ())
    (some { key := some "editor.background" }) (Or.inr (by decide))

/-- C6: an absent storage-tier selector defaults to `Global`; the
read-only methods `getCurrentColors` and `getColor` ignore the selector
entirely; the write methods `setColor`, `setColors`, `resetColor` and
`resetAllColors` invoke the store with the mapped tier as the scope of
the mutation. -/
theorem target_default_and_scope (store : StoreBehavior) :
    mapConfigurationTarget none = .Global
    ∧ (∀ p : BridgeParams, ∀ t1 t2 : Option String,
        callMethod store "getCurrentColors" (some { p with target := t1 }) =
          callMethod store "getCurrentColors" (some { p with target := t2 }))
    ∧ (∀ p : BridgeParams, ∀ t1 t2 : Option String,
        callMethod store "getColor" (some { p with target := t1 }) =
          callMethod store "getColor" (some { p with target := t2 }))
    ∧ (∀ k v : String, ∀ t : Option String, ¬ k = "" → ¬ v = "" →
        callMethod store "setColor" (some { key := some k, value := some v, target := t }) =
          runStore store (.setColorCall k v (mapConfigurationTarget t)) .ack)
    ∧ (∀ cs : List (String × String), ∀ t : Option String,
        callMethod store "setColors" (some { colors := some cs, target := t }) =
          runStore store (.setColorsCall cs (mapConfigurationTarget t)) .ack)
    ∧ (∀ k : String, ∀ t : Option String, ¬ k = "" →
        callMethod store "resetColor" (some { key := some k, target := t }) =
          runStore store (.resetColorCall k (mapConfigurationTarget t)) .ack)
    ∧ (∀ t : Option String,
        callMethod store "resetAllColors" (some { target := t }) =
          runStore store (.resetAllColorsCall (mapConfigurationTarget t)) .ack)
    ∧ callMethod store "resetAllColors" none =
        runStore store (.resetAllColorsCall .Global) .ack := by
  refine ⟨rfl, ?_, ?_, ?_, ?_, ?_, ?_, ?_⟩
  · intro p t1 t2; rfl
  · intro p t1 t2; simp [callMethod]
  · intro k v t hk hv; simp [callMethod, strFalsy, strTruthy, hk, hv]
  · intro cs t; simp [callMethod]
  · intro k t hk; simp [callMethod, strFalsy, strTruthy, hk]
  · intro t; simp [callMethod]
  · simp [callMethod, mapConfigurationTarget, strFalsy, strTruthy]

/-- Witness for C6: concrete write with an explicit `Workspace` tier
and a concrete read where flipping the tier changes nothing. -/
theorem target_default_and_scope_witness :
    callMethod (fun _ => Except.ok ()) "setColor"
        (some { key := some "k", value := some "v", target := some "Workspace" }) =
      runStore (fun _ => Except.ok ())
        (.setColorCall "k" "v" (mapConfigurationTarget (some "Workspace"))) .ack
    ∧ callMethod (fun _ => Except.ok ()) "getColor"
        (some { ({ key := some "k" } : BridgeParams) with target := some "Workspace" }) =
      callMethod (fun _ => Except.ok ()) "getColor"
        (some { ({ key := some "k" } : BridgeParams) with target := none }) :=
  ⟨(target_default_and_scope (fun _ => Except.ok ())).2.2.2.1 "k" "v"
      (some "Workspace") (by decide) (by decide),
   (target_default_and_scope (fun _ => Except.ok ())).2.2.1
      { key := some "k" } (some "Workspace") none⟩

theorem settleCount_logError (id m : String) (l : List Event) :
    settleCount id (Event.logError m :: l) = settleCount id l := by
  simp [settleCount]

/-- C1: for a response and the timeout of the same id fired in either
order, at most one of the success and failure continuations runs — and
exactly one when the record was pending and unsettled — because the
first handler checks-then-sets the cancelled flag and removes the
record within its own synchronous turn. -/
theorem settlement_exclusive (st : ClientState) (r : BridgeResponse)
    (method : String) (timeout : Nat) :
    (settleCount r.id ((handleMessage st (.response r)).2
        ++ (handleTimeout (handleMessage st (.response r)).1 r.id method timeout).2) ≤ 1
     ∧ settleCount r.id ((handleTimeout st r.id method timeout).2
        ++ (handleMessage (handleTimeout st r.id method timeout).1 (.response r)).2) ≤ 1)
    ∧ ∀ p : PendingRequest, assocGet st.pendingRequests r.id = some p →
        p.cancelled = false →
        (settleCount r.id ((handleMessage st (.response r)).2
            ++ (handleTimeout (handleMessage st (.response r)).1 r.id method timeout).2) = 1
         ∧ settleCount r.id ((handleTimeout st r.id method timeout).2
            ++ (handleMessage (handleTimeout st r.id method timeout).1 (.response r)).2) = 1) := by
  rcases hget : assocGet st.pendingRequests r.id with _ | p
  · constructor
    · constructor <;> simp [handleMessage, handleTimeout, hget, settleCount]
    · intro p hp
      simp [hget] at hp
  · by_cases hc : p.cancelled = true
    · constructor
      · constructor <;> simp [handleMessage, handleTimeout, hget, hc, settleCount]
      · intro p' hp hc'
        simp [hget] at hp
        rw [← hp] at hc'
        simp [hc] at hc'
    · have hcf : p.cancelled = false := by simpa using hc
      have hone : settleCount r.id ((handleMessage st (.response r)).2
          ++ (handleTimeout (handleMessage st (.response r)).1 r.id method timeout).2) = 1
          ∧ settleCount r.id ((handleTimeout st r.id method timeout).2
          ++ (handleMessage (handleTimeout st r.id method timeout).1 (.response r)).2) = 1 := by
        constructor
        · by_cases he : strTruthy r.error = true <;>
            simp [handleMessage, handleTimeout, hget, hcf, he,
              assocGet_assocDelete, settleCount]
        · simp [handleMessage, handleTimeout, hget, hcf,
            assocGet_assocDelete, settleCount]
      exact ⟨⟨le_of_eq hone.1, le_of_eq hone.2⟩, fun _ _ _ => hone⟩

/-- Witness for C1 at a concrete pending, unsettled record. -/
theorem settlement_exclusive_witness :
    settleCount "req-0"
        ((handleMessage
            { requestId := 1,
              pendingRequests := [("req-0", { timer := 3, cancelled := false })],
              nextTimer := 4 }
            (.response { id := "req-0", result := some "x", error := none })).2
          ++ (handleTimeout
                (handleMessage
                  { requestId := 1,
                    pendingRequests := [("req-0", { timer := 3, cancelled := false })],
                    nextTimer := 4 }
                  (.response { id := "req-0", result := some "x", error := none })).1
                "req-0" "getColor" 30000).2) = 1
    ∧ settleCount "req-0"
        ((handleTimeout
            { requestId := 1,
              pendingRequests := [("req-0", { timer := 3, cancelled := false })],
              nextTimer := 4 }
            "req-0" "getColor" 30000).2
          ++ (handleMessage
                (handleTimeout
                  { requestId := 1,
                    pendingRequests := [("req-0", { timer := 3, cancelled := false })],
                    nextTimer := 4 }
                  "req-0" "getColor" 30000).1
                (.response { id := "req-0", result := some "x", error := none })).2) = 1 :=
  (settlement_exclusive
      { requestId := 1,
        pendingRequests := [("req-0", { timer := 3, cancelled := false })],
        nextTimer := 4 }
      { id := "req-0", result := some "x", error := none } "getColor" 30000).2
    { timer := 3, cancelled := false } (by decide) (by decide)

/-- C4 counterexample: on the disconnect path the rejection error of a
pending call is the cleanup message, which does not carry the phrase
"peer disconnected" the claim names. -/
theorem disconnect_error_message_counterexample :
    (onDisconnect
        { requestId := 1,
          pendingRequests := [("req-0", { timer := 0, cancelled := false })],
          nextTimer := 1 }).2 =
      [.logError "[BridgeClient] Parent process disconnected - failing all pending requests",
       .timerCleared 0,
       .rejected "req-0" "BridgeClient cleanup - request cancelled"]
    ∧ ¬ List.IsInfix "peer disconnected".data
          "BridgeClient cleanup - request cancelled".data :=
  ⟨rfl, by decide⟩

/-- C4 (amended): when the disconnect event fires, every pending call
is failed with the cleanup error "BridgeClient cleanup - request
cancelled", every pending timer is cleared, the table is left empty,
and no continuation fires for any id without a live record (records
settled by the listener or timeout path were removed at settlement). -/
theorem disconnect_fails_all_pending (st : ClientState) :
    (onDisconnect st).1.pendingRequests = []
    ∧ (onDisconnect st).2 =
        .logError "[BridgeClient] Parent process disconnected - failing all pending requests"
          :: st.pendingRequests.flatMap (fun p =>
               [.timerCleared p.2.timer,
                .rejected p.1 "BridgeClient cleanup - request cancelled"])
    ∧ ∀ id, assocGet st.pendingRequests id = none →
        settleCount id (onDisconnect st).2 = 0 := by
  refine ⟨rfl, rfl, ?_⟩
  intro id hid
  have h := (assocGet_eq_none_iff st.pendingRequests id).mp hid
  simp only [onDisconnect, cleanup, settleCount_logError]
  exact settleCount_cleanup_zero id st.pendingRequests h

/-- Witness for C4 at a state with two pending records and a settled id
absent from the table. -/
theorem disconnect_fails_all_pending_witness :
    (onDisconnect
        { requestId := 2,
          pendingRequests := [("req-0", { timer := 0, cancelled := false }),
                              ("req-1", { timer := 1, cancelled := false })],
          nextTimer := 2 }).1.pendingRequests = []
    ∧ settleCount "req-7"
        (onDisconnect
          { requestId := 2,
            pendingRequests := [("req-0", { timer := 0, cancelled := false }),
                                ("req-1", { timer := 1, cancelled := false })],
            nextTimer := 2 }).2 = 0 :=
  ⟨(disconnect_fails_all_pending _).1,
   (disconnect_fails_all_pending _).2.2 "req-7" (by decide)⟩

end Bridge
